import Mathlib

/-!
Verification of the Psychic Pancake Cloudflare image uploader
(src/psychic-pancake.py) against its natural-language specification.

The Python module is shallowly embedded below.  Python values that the
program inspects are modelled by `PyVal`; a decoded JSON object is an
association list `PyDict`.  Exceptions are modelled by `Except PyErr`.

The module's name environment matters: three different statements of the
source refer to names that are bound nowhere in the module
(`image` at line 83, `cfid` at line 106, `requests` at line 107), so the
embedding models Python name resolution explicitly: `resolveName` looks an
identifier up in the local names of the enclosing function and then in the
module-level names, and raises `NameError` when both lookups fail, exactly
as CPython does for a name that is neither local, global nor builtin.
-/

/-- Exceptions the embedded code can raise. -/
inductive PyErr where
  | nameError (ident : String)
  | attributeError (msg : String)
deriving DecidableEq

/-- Python values as far as this program inspects them: `None`, booleans,
integers, strings and lists. -/
inductive PyVal where
  | pynone
  | pybool (b : Bool)
  | pyint (n : Int)
  | pystr (s : String)
  | pylist (xs : List PyVal)

/-- Decoded JSON object (a Python dict with string keys). -/
abbrev PyDict := List (String × PyVal)

/-- Python `==` on the values above.  A Python `bool` is an `int`
(`True == 1`), and values of unrelated types compare unequal; in
particular `True == 'true'` is `False`. -/
def pyEq : PyVal → PyVal → Bool
  | .pynone, .pynone => true
  | .pybool a, .pybool b => a == b
  | .pyint a, .pyint b => a == b
  | .pybool a, .pyint b => (if a then (1 : Int) else 0) == b
  | .pyint a, .pybool b => a == (if b then (1 : Int) else 0)
  | .pystr a, .pystr b => a == b
  | .pylist a, .pylist b => pyEqList a b
  | _, _ => false
where
  /-- Elementwise Python `==` on lists. -/
  pyEqList : List PyVal → List PyVal → Bool
  | [], [] => true
  | x :: xs, y :: ys => pyEq x y && pyEqList xs ys
  | _, _ => false

/-- Python `dict.get(key)`: the stored value, or `None` when the key is
absent. -/
def dictGet (d : PyDict) (key : String) : PyVal :=
  match List.lookup key d with
  | some v => v
  | none => .pynone

/-- Names bound at module level in src/psychic-pancake.py: the imports of
lines 5-10, the dunder constants of lines 13-14, `app` and `logger` of
lines 17-18, and the four functions.  Neither `image`, `cfid` nor
`requests` is among them (and none of the three is a Python builtin). -/
def moduleNames : List String :=
  ["Optional", "List", "Tuple", "Path", "DictWriter", "logging", "Image",
   "typer", "__author__", "__version__", "app", "logger",
   "image_checker", "upload_to_cloudflare", "file_walker", "uploader"]

/-- CPython name resolution for a name read inside a function body: local
scope first, then module globals (builtins hold none of the names this
development resolves), else `NameError`. -/
def resolveName (locals : List String) (ident : String) : Except PyErr Unit :=
  if locals.contains ident || moduleNames.contains ident then .ok ()
  else .error (.nameError ident)

/-- Image metadata that `PIL.Image.open` exposes and `image_checker`
reads: the format identifier and the two dimensions. -/
structure ImgData where
  format : String
  width : Nat
  height : Nat
deriving DecidableEq

/-- On-disk state of one candidate file: its byte size (`path.stat().st_size`)
and the result of attempting to decode it as an image (`none` models
`Image.open` raising: unreadable, corrupt, or not an image). -/
structure PFile where
  size : Nat
  decoded : Option ImgData
deriving DecidableEq

/-- Local names of `image_checker` (lines 21-88): its five parameters plus
the assigned names `img` and `exc`.  The name `image` read at line 83 is
not among them. -/
def checkerLocals : List String :=
  ["path", "max_bytes", "max_dim", "max_pixels", "image_types", "img", "exc"]

/-- Lines 21-88, `image_checker(path, max_bytes=10485760, max_dim=12000,
max_pixels=100000000, image_types=['PNG', 'JPEG'])`.  The checks run in
source order: empty path, decodability, format membership, byte size,
pixel count.  The dimension check at line 83 reads the name `image`
(the local holding the decoded image is `img`), which resolves neither
locally nor at module level, so reaching it raises `NameError`; the
comparison it was evidently meant to perform sits in the unreachable
`.ok` branch. -/
def image_checker (path : Option PFile) (max_bytes : Nat) (max_dim : Nat)
    (max_pixels : Nat) (image_types : List String) : Except PyErr Bool :=
  match path with
  | none => .ok false
  | some f =>
    match f.decoded with
    | none => .ok false
    | some img =>
      if image_types.contains img.format = false then .ok false
      else if f.size > max_bytes then .ok false
      else if img.width * img.height > max_pixels then .ok false
      else
        match resolveName checkerLocals "image" with
        | .error e => .error e
        | .ok _ =>
          if img.width > max_dim || img.height > max_dim then .ok false
          else .ok true

/-- One multipart POST as the Uploader would issue it: target URL, the
authorization header value, and the `file` field (field filename and the
file's bytes, kept opaque). -/
structure HttpRequest where
  url : String
  authorization : String
  fieldName : String
deriving DecidableEq

/-- One HTTP response: status code and decoded JSON body. -/
structure HttpResponse where
  status_code : Nat
  json : PyDict

/-- The network, mocked: a map from requests to responses. -/
def HttpEnv := HttpRequest → HttpResponse

/-- Local names of `upload_to_cloudflare` (lines 91-133): its three
parameters plus the assigned names `url`, `resp` and `ret`.  Neither
`cfid` (line 106) nor `requests` (line 107) is among them. -/
def uploadLocals : List String :=
  ["image", "cf_id", "cf_token", "url", "resp", "ret"]

/-- Lines 112-133 of `upload_to_cloudflare`: the processing of the HTTP
response, embedded on its own as a function of the response.  Non-200
status returns `None` (line 119); then `ret.get('success') != 'true'`
compares the decoded success field with the STRING `'true'` (line 125)
and returns `None` on inequality; otherwise the decoded body is
returned.  In the source these lines are unreachable, because line 106
raises `NameError` first. -/
def cloudflare_response_handling (resp : HttpResponse) : Option PyDict :=
  if resp.status_code ≠ 200 then none
  else if pyEq (dictGet resp.json "success") (.pystr "true") = false then none
  else some resp.json

/-- Lines 91-133, `upload_to_cloudflare(image, cf_id, cf_token)`.  The
first component is the call's outcome, the second the list of HTTP
requests actually issued during the call.  Line 106 evaluates the
f-string for `url`, whose `{cfid}` placeholder reads the name `cfid`
(the parameter is `cf_id`): resolution fails and raises `NameError`
before any request is issued.  Line 107 would likewise read `requests`,
a module that is never imported.  The two guards below compute to
`.error` on the actual name tables, so the final branch — standing for
the unreachable lines 107-133, whose response processing is embedded as
`cloudflare_response_handling` — is dead code. -/
def upload_to_cloudflare (image : String × PFile) (cf_id : String)
    (cf_token : String) (env : HttpEnv) :
    Except PyErr (Option PyDict) × List HttpRequest :=
  match resolveName uploadLocals "cfid" with
  | .error e => (.error e, [])
  | .ok _ =>
    match resolveName uploadLocals "requests" with
    | .error e => (.error e, [])
    | .ok _ => (.ok none, [])

/-- A filesystem node as the walker distinguishes them: a directory with
its children in enumeration order, a regular file with its on-disk
state, or anything else (nonexistent path, special node).  Names stand
for absolute paths. -/
inductive FSNode where
  | dir (name : String) (children : List FSNode)
  | file (name : String) (content : PFile)
  | other (name : String)

/-- The Run Result Log: ordered (path, upload outcome) pairs. -/
abbrev WalkLog := List (String × Option PyDict)

mutual

/-- Lines 136-171, `file_walker(pobj, cf_id, cf_token)`.  A directory
(line 157: `pobj` is a `Path`, hence truthy, so the guard is its
`is_dir()` test) accumulates the recursive results of its children in
order; a regular file is first checked by `image_checker(pobj)` — the
call of line 165 passes only the path, so the checker runs with its
default constraints — and, when accepted, uploaded, the pair
`(pobj, resp)` being appended; any other node contributes nothing.
Exceptions raised by the checker or the uploader propagate. -/
def file_walker (pobj : FSNode) (cf_id : String) (cf_token : String)
    (env : HttpEnv) : Except PyErr WalkLog :=
  match pobj with
  | .dir _ children => walk_items children cf_id cf_token env
  | .file name f =>
    match image_checker (some f) 10485760 12000 100000000 ["PNG", "JPEG"] with
    | .error e => .error e
    | .ok b =>
      if b then
        match (upload_to_cloudflare (name, f) cf_id cf_token env).1 with
        | .error e => .error e
        | .ok resp => .ok [(name, resp)]
      else .ok []
  | .other _ => .ok []

/-- The `for item in pobj.iterdir()` loop of lines 158-159: children are
walked left to right, `file_log += ...` concatenating each child's log;
an exception in one child aborts the loop. -/
def walk_items (items : List FSNode) (cf_id : String) (cf_token : String)
    (env : HttpEnv) : Except PyErr WalkLog :=
  match items with
  | [] => .ok []
  | c :: rest =>
    match file_walker c cf_id cf_token env with
    | .error e => .error e
    | .ok l1 =>
      match walk_items rest cf_id cf_token env with
      | .error e => .error e
      | .ok l2 => .ok (l1 ++ l2)

end

mutual

/-- Paths of the regular files in the tree, in traversal order, that the
default-constraint Validator accepts (returns `.ok true` on). -/
def passFiles (t : FSNode) : List String :=
  match t with
  | .dir _ children => passFilesList children
  | .file name f =>
    match image_checker (some f) 10485760 12000 100000000 ["PNG", "JPEG"] with
    | .ok true => [name]
    | _ => []
  | .other _ => []

/-- The list version of `passFiles`, concatenating over siblings. -/
def passFilesList (items : List FSNode) : List String :=
  match items with
  | [] => []
  | c :: rest => passFiles c ++ passFilesList rest

end

/-- Single-quote character, for Python repr of strings. -/
def squote : String := String.singleton (Char.ofNat 39)

mutual

/-- Python repr of a value, as list elements are rendered inside str(list). -/
def pyRepr (v : PyVal) : String :=
  match v with
  | .pynone => "None"
  | .pybool b => if b then "True" else "False"
  | .pyint n => toString n
  | .pystr s => squote ++ s ++ squote
  | .pylist xs => "[" ++ joinRepr xs ++ "]"

/-- Comma-separated reprs of the elements of a Python list. -/
def joinRepr (xs : List PyVal) : String :=
  match xs with
  | [] => ""
  | [x] => pyRepr x
  | x :: y :: rest => pyRepr x ++ ", " ++ joinRepr (y :: rest)

end

/-- Rendering of one CSV field by the csv module's writer: `None` is
written as the empty string, any other value as its str(). -/
def csvCell (v : PyVal) : String :=
  match v with
  | .pynone => ""
  | .pybool b => if b then "True" else "False"
  | .pyint n => toString n
  | .pystr s => s
  | .pylist xs => "[" ++ joinRepr xs ++ "]"

/-- The loop of lines 211-217: one CSV data row per log entry, fields
`filename` (the entry's path; node names already model resolved absolute
paths, so `entry[0].resolve()` is the name itself), then
`entry[1].get('id')`, `entry[1].get('uploaded')`, `entry[1].get('varients')`.
When the entry's result is the absence value, `entry[1]` is `None` and
`entry[1].get(...)` raises `AttributeError`; the rows already written
stay written, later entries are not reached.  Returns the data rows
produced together with the exception, if one was raised. -/
def report_rows (file_log : WalkLog) : List (List String) × Option PyErr :=
  match file_log with
  | [] => ([], none)
  | (name, result) :: rest =>
    match result with
    | none => ([], some (.attributeError "NoneType object has no attribute get"))
    | some body =>
      let row := [name, csvCell (dictGet body "id"),
                  csvCell (dictGet body "uploaded"),
                  csvCell (dictGet body "varients")]
      let tail := report_rows rest
      (row :: tail.1, tail.2)

/-- Lines 206-217 of `uploader`: when a report path is given, the header
row `filename,id,upload,varients` is written first (line 210), then the
data rows.  The result is the full sequence of rows written and the
exception, if writing a row raised one. -/
def write_report (file_log : WalkLog) : List (List String) × Option PyErr :=
  let tail := report_rows file_log
  (["filename", "id", "upload", "varients"] :: tail.1, tail.2)

mutual

/-- Modelled from the spec for comparison with `file_walker`: the same
traversal, but with the Validation Constraints passed in explicitly, as
section 9 of the spec asks ("an explicit immutable struct/record passed
into the Validator").  `file_walker` proves equal to this walker applied
to the built-in defaults, and to no other constraint tuple. -/
def walker_with_constraints (max_bytes : Nat) (max_dim : Nat)
    (max_pixels : Nat) (image_types : List String) (pobj : FSNode)
    (cf_id : String) (cf_token : String) (env : HttpEnv) :
    Except PyErr WalkLog :=
  match pobj with
  | .dir _ children =>
    walker_with_constraints_items max_bytes max_dim max_pixels image_types
      children cf_id cf_token env
  | .file name f =>
    match image_checker (some f) max_bytes max_dim max_pixels image_types with
    | .error e => .error e
    | .ok b =>
      if b then
        match (upload_to_cloudflare (name, f) cf_id cf_token env).1 with
        | .error e => .error e
        | .ok resp => .ok [(name, resp)]
      else .ok []
  | .other _ => .ok []

/-- Sibling loop of `walker_with_constraints`. -/
def walker_with_constraints_items (max_bytes : Nat) (max_dim : Nat)
    (max_pixels : Nat) (image_types : List String) (items : List FSNode)
    (cf_id : String) (cf_token : String) (env : HttpEnv) :
    Except PyErr WalkLog :=
  match items with
  | [] => .ok []
  | c :: rest =>
    match walker_with_constraints max_bytes max_dim max_pixels image_types
        c cf_id cf_token env with
    | .error e => .error e
    | .ok l1 =>
      match walker_with_constraints_items max_bytes max_dim max_pixels
          image_types rest cf_id cf_token env with
      | .error e => .error e
      | .ok l2 => .ok (l1 ++ l2)

end

/-- A mocked network that always answers with status 500 and an empty body. -/
def constEnv : HttpEnv := fun _ => ⟨500, []⟩

/-- A mocked network that always answers with status 200 and a body whose
success indicator is the JSON boolean true. -/
def successEnv : HttpEnv := fun _ =>
  ⟨200, [("success", .pybool true), ("id", .pystr "abc"),
         ("uploaded", .pystr "2024-01-01"), ("varients", .pylist [])]⟩

/-- A 1 x 1 PNG of 100 bytes: inside every default limit. -/
def okPng : PFile := ⟨100, some ⟨"PNG", 1, 1⟩⟩

/-- A 12001 x 1 JPEG of 100 bytes: width exceeds the 12000 limit by one,
while its pixel count 12001 is far below the pixel limit. -/
def wideJpeg : PFile := ⟨100, some ⟨"JPEG", 12001, 1⟩⟩

/-- A 2 x 2 JPEG of 50 bytes: inside every default limit. -/
def smallJpeg : PFile := ⟨50, some ⟨"JPEG", 2, 2⟩⟩

/-- A file that does not decode as an image. -/
def notAnImage : PFile := ⟨5, none⟩

/-- A GIF inside all numeric limits: rejected for its format alone. -/
def gifFile : PFile := ⟨100, some ⟨"GIF", 1, 1⟩⟩

/-- A tree whose only file is rejected by the Validator (not an image). -/
def demoTree : FSNode :=
  .dir "/root" [.file "/root/notes.txt" notAnImage, .other "/root/dev"]

/-- A tree mixing a rejected image and a non-image. -/
def demoTree2 : FSNode :=
  .dir "/base" [.file "/base/anim.gif" gifFile,
                .dir "/base/sub" [.file "/base/sub/x.bin" notAnImage]]

/-- The Uploader's outcome is the same for every file, every credential
pair and every network: the `NameError` for `cfid` raised at line 106,
with no request issued. -/
theorem upload_always_name_error (image : String × PFile) (ci ct : String)
    (env : HttpEnv) :
    upload_to_cloudflare image ci ct env = (.error (.nameError "cfid"), []) :=
  rfl

mutual

/-- When a walk returns a log, the paths logged are exactly the paths of
the Validator-accepted files of the tree, in traversal order. -/
theorem file_walker_log_passes (t : FSNode) (ci ct : String) (env : HttpEnv)
    (log : WalkLog) (h : file_walker t ci ct env = .ok log) :
    log.map Prod.fst = passFiles t := by
  cases t with
  | dir name children =>
    rw [file_walker] at h
    rw [passFiles]
    exact walk_items_log_passes children ci ct env log h
  | file name f =>
    rw [file_walker] at h
    rw [passFiles]
    cases hc : image_checker (some f) 10485760 12000 100000000 ["PNG", "JPEG"] with
    | error e => rw [hc] at h; cases h
    | ok b =>
      rw [hc] at h
      cases b with
      | false =>
        simp at h
        subst h
        rfl
      | true =>
        rw [upload_always_name_error (name, f) ci ct env] at h
        simp at h
  | other name =>
    rw [file_walker] at h
    cases h
    rfl

/-- Sibling version of `file_walker_log_passes`. -/
theorem walk_items_log_passes (items : List FSNode) (ci ct : String)
    (env : HttpEnv) (log : WalkLog)
    (h : walk_items items ci ct env = .ok log) :
    log.map Prod.fst = passFilesList items := by
  cases items with
  | nil =>
    rw [walk_items] at h
    cases h
    rfl
  | cons c rest =>
    rw [walk_items] at h
    rw [passFilesList]
    cases h1 : file_walker c ci ct env with
    | error e => rw [h1] at h; cases h
    | ok l1 =>
      rw [h1] at h
      cases h2 : walk_items rest ci ct env with
      | error e => rw [h2] at h; cases h
      | ok l2 =>
        rw [h2] at h
        cases h
        rw [List.map_append,
            file_walker_log_passes c ci ct env l1 h1,
            walk_items_log_passes rest ci ct env l2 h2]

end

mutual

/-- The walker of the source equals the constraint-parameterised walker
applied to the built-in default constraints. -/
theorem file_walker_eq_defaults (t : FSNode) (ci ct : String) (env : HttpEnv) :
    file_walker t ci ct env
      = walker_with_constraints 10485760 12000 100000000 ["PNG", "JPEG"]
          t ci ct env := by
  cases t with
  | dir name children =>
    rw [file_walker, walker_with_constraints]
    exact walk_items_eq_defaults children ci ct env
  | file name f => rw [file_walker, walker_with_constraints]
  | other name => rw [file_walker, walker_with_constraints]

/-- Sibling version of `file_walker_eq_defaults`. -/
theorem walk_items_eq_defaults (items : List FSNode) (ci ct : String)
    (env : HttpEnv) :
    walk_items items ci ct env
      = walker_with_constraints_items 10485760 12000 100000000 ["PNG", "JPEG"]
          items ci ct env := by
  cases items with
  | nil => rw [walk_items, walker_with_constraints_items]
  | cons c rest =>
    rw [walk_items, walker_with_constraints_items,
        file_walker_eq_defaults c ci ct env,
        walk_items_eq_defaults rest ci ct env]

end

/-- C1: the claim states that the default-constraint Validator returns true
exactly when the format is PNG or JPEG, the byte size is at most 10485760,
the pixel count is at most 100000000 and each dimension is at most 12000,
returning false when any single limit is exceeded by one.  On the code
this fails: a 1 x 1 PNG of 100 bytes (inside every limit, so the claim
demands `true`) makes `image_checker` raise `NameError` at the dimension
check of line 83, and a 12001 x 1 JPEG (width over the limit by one, so
the claim demands `false`) raises the same `NameError` instead of
returning. -/
theorem c1_checker_boundary_behaviour :
    image_checker (some okPng) 10485760 12000 100000000 ["PNG", "JPEG"]
        = .error (.nameError "image") ∧
    image_checker (some wideJpeg) 10485760 12000 100000000 ["PNG", "JPEG"]
        = .error (.nameError "image") :=
  ⟨rfl, rfl⟩

/-- C2: every entry of a returned Run Result Log corresponds to a
Validator-accepted regular file, and the log's length equals the number
of accepted files in the tree; directories and rejected files contribute
nothing.  Holds: whenever the walk returns a log, the logged paths are
exactly `passFiles` of the tree, in order, so the lengths agree. -/
theorem c2_log_matches_passing_files (t : FSNode) (ci ct : String)
    (env : HttpEnv) (log : WalkLog) (h : file_walker t ci ct env = .ok log) :
    log.map Prod.fst = passFiles t ∧ log.length = (passFiles t).length := by
  have hm := file_walker_log_passes t ci ct env log h
  exact ⟨hm, by rw [← hm, List.length_map]⟩

/-- Witness for C2 on a concrete tree whose only file is rejected: the
walk returns the empty log and the conclusion holds for it. -/
theorem c2_witness :
    ([] : WalkLog).map Prod.fst = passFiles demoTree ∧
    ([] : WalkLog).length = (passFiles demoTree).length :=
  c2_log_matches_passing_files demoTree "acct" "tok" constEnv [] rfl

/-- C3: the claim states the Uploader never raises and returns `None` on a
non-200 status or a missing/false success indicator.  On the code this
fails: for every input the call raises `NameError` at line 106 (the URL
f-string reads `cfid`; the parameter is `cf_id`, and `requests` is not
imported either), before the response is even obtained — here shown
against a network answering 500 as well as one answering 200 with a
successful body. -/
theorem c3_upload_raises_name_error :
    upload_to_cloudflare ("/p/photo.png", smallJpeg) "acct1" "tok1" constEnv
        = (.error (.nameError "cfid"), []) ∧
    upload_to_cloudflare ("/p/photo.png", smallJpeg) "acct1" "tok1" successEnv
        = (.error (.nameError "cfid"), []) :=
  ⟨rfl, rfl⟩

/-- C4: the claim states that a 200 response whose body has a truthy
success indicator makes the Uploader return the decoded body.  On the
code this fails twice over: the call raises `NameError` before reading
any response, and the response processing of lines 124-130, taken by
itself, compares the success field with the string `'true'`, so the JSON
boolean `true` fails the test and `None` is returned instead of the
body. -/
theorem c4_success_body_not_returned :
    upload_to_cloudflare ("/p/img.png", okPng) "acct2" "tok2" successEnv
        = (.error (.nameError "cfid"), []) ∧
    cloudflare_response_handling
        ⟨200, [("success", .pybool true), ("id", .pystr "abc"),
               ("uploaded", .pystr "2024-01-01"), ("varients", .pylist [])]⟩
        = none :=
  ⟨rfl, rfl⟩

/-- C5: the claim states that a Validator-accepted file yields exactly one
log entry even when the upload fails.  On the code this fails: a file
inside every limit (which the Validator was evidently meant to accept)
makes the walk raise the checker's line-83 `NameError`, so no log is
produced at all — and had the checker accepted, the Uploader's line-106
`NameError` would abort the walk just the same. -/
theorem c5_validated_file_aborts_walk :
    file_walker (.dir "/pics" [.file "/pics/good.png" okPng])
        "acct" "tok" constEnv = .error (.nameError "image") :=
  rfl

/-- C6: the claim states the CSV report has the fixed header, one row per
log entry, and blank `id`/`upload`/`varients` fields for an entry whose
result is absent.  On the code the absent case fails: `entry[1]` is
`None` and `entry[1].get('id')` (line 214) raises `AttributeError`, so
the report writing stops after the header; the second conjunct shows the
present-result case does produce its row. -/
theorem c6_report_crashes_on_absent_result :
    write_report [("/t/a.png", none)]
        = ([["filename", "id", "upload", "varients"]],
           some (.attributeError "NoneType object has no attribute get")) ∧
    write_report [("/t/b.png",
        some [("id", .pystr "abc"), ("uploaded", .pystr "2024-01-01"),
              ("varients", .pylist [])])]
        = ([["filename", "id", "upload", "varients"],
            ["/t/b.png", "abc", "2024-01-01", "[]"]], none) :=
  ⟨rfl, rfl⟩

/-- C7: the claim states the Validator is total — a boolean for every
on-disk state, never raising.  On the code this fails: it does return
false for an undecodable file and for a wrong-format image, but a 2 x 2
JPEG of 50 bytes, inside every limit, raises `NameError` at line 83
instead of returning a boolean. -/
theorem c7_checker_not_total :
    image_checker (some notAnImage) 10485760 12000 100000000 ["PNG", "JPEG"]
        = .ok false ∧
    image_checker (some gifFile) 10485760 12000 100000000 ["PNG", "JPEG"]
        = .ok false ∧
    image_checker (some smallJpeg) 10485760 12000 100000000 ["PNG", "JPEG"]
        = .error (.nameError "image") :=
  ⟨rfl, rfl, rfl⟩

/-- C8: the claim states every upload issues exactly one multipart POST to
the account's endpoint with a bearer header and the file field.  On the
code this fails: the call raises `NameError` while building the URL
(line 106 reads `cfid`, not the `cf_id` parameter, and `requests` is
never imported), and the list of issued requests is empty. -/
theorem c8_no_request_issued :
    (upload_to_cloudflare ("/p/cat.png", okPng) "acct3" "tok3" constEnv).2
        = [] ∧
    (upload_to_cloudflare ("/p/cat.png", okPng) "acct3" "tok3" constEnv).1
        = .error (.nameError "cfid") :=
  ⟨rfl, rfl⟩

/-- C9: walking the same unchanged tree twice against networks that give
the same response to every request produces identical Run Result Logs.
Holds: the walk is a function of the tree, the credentials and the
response map alone. -/
theorem c9_walk_deterministic (t : FSNode) (ci ct : String)
    (e1 e2 : HttpEnv) (h : ∀ r, e1 r = e2 r) :
    file_walker t ci ct e1 = file_walker t ci ct e2 := by
  have he : e1 = e2 := funext h
  rw [he]

/-- Witness for C9 on a concrete tree and network. -/
theorem c9_witness :
    file_walker demoTree2 "acct" "tok" constEnv
      = file_walker demoTree2 "acct" "tok" constEnv :=
  c9_walk_deterministic demoTree2 "acct" "tok" constEnv constEnv (fun _ => rfl)

/-- C10: every Validator invocation made by the Walker uses the built-in
default constraints — `file_walker(pobj, cf_id, cf_token)` takes no
constraint parameter (line 165 calls `image_checker(pobj)` bare), so the
walk equals the constraint-parameterised walker applied to exactly
max_bytes 10485760, max_dim 12000, max_pixels 100000000 and the formats
PNG and JPEG. -/
theorem c10_walker_uses_default_constraints (t : FSNode) (ci ct : String)
    (env : HttpEnv) :
    file_walker t ci ct env
      = walker_with_constraints 10485760 12000 100000000 ["PNG", "JPEG"]
          t ci ct env :=
  file_walker_eq_defaults t ci ct env
